import Mathlib

/-!
# User record lifecycle and credential handling

A shallow embedding of `internal/domain/user/user_model.go`,
`internal/domain/user/repository.go` and the `Profile` handler of
`internal/handlers/user.go`.

Everything the Go code obtains from outside (the random UUID, the clock,
the salt drawn by bcrypt, the answers of the database driver) is an explicit
argument, so every function below is a total, computable function.
-/

namespace user

/-! ## Primitive types -/

/-- Go `uuid.UUID`: sixteen bytes, read as one number. -/
abbrev UUID := Nat

/-- Go `uuid.Nil`, the all-zero identifier. -/
def uuidNil : UUID := 0

/-- Go `time.Time`, an instant. -/
abbrev Time := Nat

/-- Go `null.Time` of guregu/null: a time and a validity flag. -/
structure NullTime where
  Time : Time := 0
  Valid : Bool := false
deriving DecidableEq, Repr

/-- Go `null.TimeFrom`: a valid `null.Time`. -/
def NullTime.TimeFrom (t : user.Time) : NullTime := { Time := t, Valid := true }

/-- Modelled from the spec: the package `shared/nuuid` is not among the
sources. `updatedBy`/`deletedBy` are optional identifiers, absent until set;
`NUUID` is an identifier with a validity flag. -/
structure NUUID where
  UUID : UUID := uuidNil
  Valid : Bool := false
deriving DecidableEq, Repr

/-- Modelled from the spec: `nuuid.From` of the absent package `shared/nuuid`;
`updatedBy = actingUser.id` makes the optional identifier present. -/
def NUUID.From (id : user.UUID) : NUUID := { UUID := id, Valid := true }

/-- Modelled from the spec: `NUUID.Ptr` of the absent package `shared/nuuid`;
an absent identifier is the nil pointer. -/
def NUUID.Ptr (n : NUUID) : Option user.UUID := if n.Valid then some n.UUID else none

/-! ## Errors -/

/-- The Go `error` values that occur; `nil` is `none` of `Option Failure`. -/
inductive Failure where
  /-- Go `validator.ValidationErrors`: the struct fields that failed `required`, in order. -/
  | Validation (fields : List String)
  /-- an error of `bcrypt.GenerateFromPassword`. -/
  | Bcrypt (msg : String)
  /-- Go `failure.Conflict(operation, entity, message)`. -/
  | Conflict (operation entity message : String)
  /-- Go `failure.NotFound(entity)`. -/
  | NotFound (entity : String)
  /-- an error reported by the database driver. -/
  | Driver (msg : String)
  /-- Go `database/sql` cannot store the scanned integer in a `bool`. -/
  | Convert (n : Nat)
deriving DecidableEq, Repr

/-- What a call leaves behind besides its results. -/
inductive Event where
  /-- Go `log.Println(err.Error())`. -/
  | Println (e : Failure)
  /-- a call `HashPassword(password)`. -/
  | Hash (password : String)
deriving DecidableEq, Repr

/-! ## The records of `user_model.go` -/

/-- Go `User`, the in-memory user record. -/
structure User where
  Id : UUID := uuidNil
  Username : String := ""
  Email : String := ""
  Name : String := ""
  Password : String := ""
  Role : String := ""
  AccessToken : String := ""
  CreatedAt : Time := 0
  CreatedBy : UUID := uuidNil
  UpdatedAt : NullTime := {}
  UpdatedBy : NUUID := {}
  DeletedAt : NullTime := {}
  DeletedBy : NUUID := {}
deriving DecidableEq, Repr

/-- Go `UserRequestFormat`, the body of a create or update request. -/
structure UserRequestFormat where
  Username : String := ""
  Email : String := ""
  Name : String := ""
  Password : String := ""
  Role : String := ""
deriving DecidableEq, Repr

/-- Go `UserResponseFormat`, the view returned to callers; `*uuid.UUID` is an
optional identifier. -/
structure UserResponseFormat where
  Id : UUID
  Username : String
  Email : String
  Name : String
  Role : String
  AccessToken : String
  CreatedAt : Time
  CreatedBy : UUID
  UpdatedAt : NullTime
  UpdatedBy : Option UUID
  DeletedAt : NullTime
  DeletedBy : Option UUID
deriving DecidableEq, Repr

/-! ## bcrypt -/

/-- The two functions of `golang.org/x/crypto/bcrypt` the code calls. The
library is outside the repository, so its cryptographic core is a parameter. -/
structure Bcrypt where
  /-- The encoded salt followed by the encoded digest, for a password, a cost
  and the random bytes drawn for the salt; or the library's error. -/
  crypt : String → Nat → Nat → Except String String
  /-- Whether `CompareHashAndPassword(hash, password)` returns `nil`. -/
  compare : String → String → Bool

/-- The cost, printed with two digits as bcrypt does (`%02d`). -/
def costDigits (cost : Nat) : String :=
  if cost < 10 then "0" ++ toString cost else toString cost

/-- Go `bcrypt.GenerateFromPassword`: on success the output is
`$2a$`, the cost, `$`, then the encoded salt and digest. -/
def Bcrypt.GenerateFromPassword (B : Bcrypt) (password : String) (cost entropy : Nat) :
    Except String String :=
  match B.crypt password cost entropy with
  | .error e => .error e
  | .ok body => .ok ("$2a$" ++ costDigits cost ++ "$" ++ body)

/-- Go `HashPassword`: `string(bytes), err`; on an error the bytes are nil. -/
def HashPassword (B : Bcrypt) (entropy : Nat) (password : String) : String × Option Failure :=
  match B.GenerateFromPassword password 14 entropy with
  | .ok bytes => (bytes, none)
  | .error e => ("", some (Failure.Bcrypt e))

/-- Go `CheckPasswordHash`: `err == nil` for `CompareHashAndPassword(hash, password)`. -/
def CheckPasswordHash (B : Bcrypt) (password hash : String) : Bool :=
  B.compare hash password

/-! ## Validation -/

/-- Modelled from the spec: the validator behind `shared.GetValidator()` is not
among the sources. A `validate:"required"` string field must be non-empty; there
are no format checks. -/
def requiredString (field value : String) : List String :=
  if value = "" then [field] else []

/-- Modelled from the spec: the validator behind `shared.GetValidator()` is not
among the sources. A `validate:"required"` identifier must not be the zero value. -/
def requiredUUID (field : String) (value : UUID) : List String :=
  if value = uuidNil then [field] else []

/-- The fields of a `User` that fail their `validate:"required"` tag, in struct order. -/
def User.failedFields (u : User) : List String :=
  requiredUUID "Id" u.Id ++ requiredString "Username" u.Username ++
  requiredString "Email" u.Email ++ requiredString "Name" u.Name ++
  requiredString "Password" u.Password ++ requiredString "Role" u.Role

/-- Go `User.Validate`: `validator.Struct(u)`. -/
def User.Validate (u : User) : Option Failure :=
  match u.failedFields with
  | [] => none
  | fs => some (Failure.Validation fs)

/-! ## The entity's operations -/

/-- Go `User.IsDeleted`. -/
def User.IsDeleted (u : User) : Bool := u.DeletedAt.Valid && u.DeletedBy.Valid

/-- What the entity's operations take from outside. -/
structure Env where
  /-- the value of `userID` after `userID, _ := uuid.NewV4()`. -/
  newV4 : UUID
  /-- Go `time.Now()`. -/
  now : Time
  /-- the random bytes bcrypt draws for its salt. -/
  entropy : Nat
deriving DecidableEq, Repr

/-- The results of an entity operation: the user (the returned value, or the
receiver after the call), the returned error, and the calls made on the way. -/
structure Outcome where
  user : User
  err : Option Failure
  trace : List Event
deriving DecidableEq, Repr

/-- Go `(*User).Update`, on the receiver `u`. -/
def User.Update (B : Bcrypt) (env : Env) (u : User) (req : UserRequestFormat) (acting : User) :
    Outcome :=
  let u1 : User := { u with
    Username := req.Username
    Email := req.Email
    Name := req.Name
    Password := req.Password
    Role := req.Role
    UpdatedAt := NullTime.TimeFrom env.now
    UpdatedBy := NUUID.From acting.Id }
  match u1.Validate with
  | some e => { user := u1, err := some e, trace := [Event.Println e] }
  | none =>
    match HashPassword B env.entropy req.Password with
    | (_, some e) =>
      { user := u1, err := some e, trace := [Event.Hash req.Password, Event.Println e] }
    | (hashPassword, none) =>
      { user := { u1 with Password := hashPassword }, err := none,
        trace := [Event.Hash req.Password] }

/-- Go `User.NewFromRequestFormat`. -/
def User.NewFromRequestFormat (B : Bcrypt) (env : Env) (req : UserRequestFormat) : Outcome :=
  let userID := env.newV4
  let newUser : User := {
    Id := userID
    Username := req.Username
    Email := req.Email
    Name := req.Name
    Password := req.Password
    Role := req.Role
    CreatedAt := env.now
    CreatedBy := userID }
  match newUser.Validate with
  | some e => { user := newUser, err := some e, trace := [Event.Println e] }
  | none =>
    match HashPassword B env.entropy req.Password with
    | (_, some e) =>
      { user := newUser, err := some e, trace := [Event.Hash req.Password, Event.Println e] }
    | (passwordHashed, none) =>
      { user := { newUser with Password := passwordHashed }, err := none,
        trace := [Event.Hash req.Password] }

/-- The receiver of `Update` after the assignments that precede validation. -/
def User.overwritten (env : Env) (u : User) (req : UserRequestFormat) (acting : User) : User :=
  { u with
    Username := req.Username
    Email := req.Email
    Name := req.Name
    Password := req.Password
    Role := req.Role
    UpdatedAt := NullTime.TimeFrom env.now
    UpdatedBy := NUUID.From acting.Id }

/-- Go `User.ToResponseFormat`. -/
def User.ToResponseFormat (u : User) : UserResponseFormat :=
  { Id := u.Id
    Username := u.Username
    Email := u.Email
    Name := u.Name
    Role := u.Role
    AccessToken := u.AccessToken
    CreatedAt := u.CreatedAt
    CreatedBy := u.CreatedBy
    UpdatedAt := u.UpdatedAt
    UpdatedBy := u.UpdatedBy.Ptr
    DeletedAt := u.DeletedAt
    DeletedBy := u.DeletedBy.Ptr }

/-- Go `User.MarshalJSON`: `json.Marshal(u.ToResponseFormat())`, for any encoder
`marshal` of the response view. -/
def User.MarshalJSON {α : Type} (marshal : UserResponseFormat → α) (u : User) : α :=
  marshal u.ToResponseFormat

/-- A stand-in for bcrypt for concrete runs. Like bcrypt it keeps the salt in
its output: the salt's digits, a dot, then the password; comparison skips the
seven characters of `$2a$14$` and the salt and compares the rest. -/
def demoBcrypt : Bcrypt where
  crypt := fun password _ entropy => .ok (toString entropy ++ "." ++ password)
  compare := fun hash password =>
    (hash.data.drop 7).dropWhile Char.isDigit == '.' :: password.data

/-! ## The store of `repository.go`

The table is a list of rows. Each repository call returns its error, the table
afterwards and the calls it made on the connection. `logger.ErrorWithStack`
only logs and is left out. -/

/-- A row of table `user`: the columns named by the `db` tags of `User`
(`AccessToken` is tagged `db:"-"` and has no column). -/
structure Row where
  id : UUID
  username : String
  email : String
  name : String
  password : String
  role : String
  created_at : Time
  created_by : UUID
  updated_at : NullTime
  updated_by : NUUID
  deleted_at : NullTime
  deleted_by : NUUID
deriving DecidableEq, Repr

/-- The named parameters `:id`, `:username`, ... that `stmt.Exec(user)` binds. -/
def User.toRow (u : User) : Row :=
  { id := u.Id
    username := u.Username
    email := u.Email
    name := u.Name
    password := u.Password
    role := u.Role
    created_at := u.CreatedAt
    created_by := u.CreatedBy
    updated_at := u.UpdatedAt
    updated_by := u.UpdatedBy
    deleted_at := u.DeletedAt
    deleted_by := u.DeletedBy }

/-- The statements of `userQueries` that write. -/
inductive Stmt where
  | insertUser
  | updateUser
deriving DecidableEq, Repr

/-- Go `userQueries.insertUser`: one new row with the twelve bound columns. -/
def insertUser (p : Row) (table : List Row) : List Row :=
  table ++ [{ id := p.id, username := p.username, email := p.email, name := p.name,
              password := p.password, role := p.role, created_at := p.created_at,
              created_by := p.created_by, updated_at := p.updated_at,
              updated_by := p.updated_by, deleted_at := p.deleted_at,
              deleted_by := p.deleted_by }]

/-- Go `userQueries.updateUser`: `UPDATE user SET ... WHERE id = :id`, which sets the
eleven columns other than `id` in every row whose `id` is the bound one. -/
def updateUser (p : Row) (table : List Row) : List Row :=
  table.map fun r =>
    if r.id = p.id then
      { r with username := p.username, email := p.email, name := p.name,
               password := p.password, role := p.role, created_at := p.created_at,
               created_by := p.created_by, updated_at := p.updated_at,
               updated_by := p.updated_by, deleted_at := p.deleted_at,
               deleted_by := p.deleted_by }
    else r

/-- The effect of executing a statement with bound parameters. -/
def Stmt.run : Stmt → Row → List Row → List Row
  | .insertUser => user.insertUser
  | .updateUser => user.updateUser

/-- The calls made on the database connection. -/
inductive DBOp where
  /-- Go `DB.Read.Get` of `SELECT COUNT(id) FROM user WHERE id = ?`. -/
  | GetCount (id : UUID)
  /-- opening the transaction. -/
  | Begin
  /-- Go `tx.PrepareNamed`. -/
  | PrepareNamed (stmt : Stmt)
  /-- Go `stmt.Exec(user)`. -/
  | Exec (stmt : Stmt) (params : Row)
  | Commit
  | Rollback
deriving DecidableEq, Repr

/-- The database behind `UserRepositoryMySQL.DB`: the committed content of table
`user`, and the errors the driver answers with at each kind of call (`none`: the
call goes through). -/
structure MySQLConn where
  table : List Row
  readErr : Option String := none
  beginErr : Option String := none
  prepareErr : Option String := none
  execErr : Option String := none
  commitErr : Option String := none
deriving DecidableEq, Repr

/-- The results of a repository call: the returned error, the table afterwards
and the calls made on the connection, in order. -/
structure StoreOutcome where
  err : Option Failure
  table : List Row
  ops : List DBOp
deriving DecidableEq, Repr

/-- Query `SELECT COUNT(id) FROM user WHERE id = ?`: the number of rows with the id. -/
def countById (table : List Row) (id : UUID) : Nat :=
  (table.filter fun r => r.id = id).length

/-- How `database/sql` stores the scanned count in `exists bool`: `0` and `1`
convert, any other integer is a conversion error and leaves `exists` false. -/
def scanBool : Nat → Bool × Option Failure
  | 0 => (false, none)
  | 1 => (true, none)
  | n => (false, some (Failure.Convert n))

/-- Go `UserRepositoryMySQL.ExistsByID`. -/
def UserRepositoryMySQL.ExistsByID (db : MySQLConn) (id : UUID) : Bool × Option Failure :=
  match db.readErr with
  | some e => (false, some (Failure.Driver e))
  | none => scanBool (countById db.table id)

/-- Go `txCreate` and `txUpdate`, which differ in the statement only: prepare it,
execute it with the user bound. Returns the error, the table as the transaction
sees it, and the calls made. -/
def txExec (db : MySQLConn) (stmt : Stmt) (user : User) (table : List Row) :
    Option Failure × List Row × List DBOp :=
  match db.prepareErr with
  | some e => (some (Failure.Driver e), table, [DBOp.PrepareNamed stmt])
  | none =>
    match db.execErr with
    | some e =>
      (some (Failure.Driver e), table, [DBOp.PrepareNamed stmt, DBOp.Exec stmt user.toRow])
    | none =>
      (none, stmt.run user.toRow table, [DBOp.PrepareNamed stmt, DBOp.Exec stmt user.toRow])

/-- Go `UserRepositoryMySQL.txCreate`. -/
def UserRepositoryMySQL.txCreate (db : MySQLConn) (user : User) (table : List Row) :
    Option Failure × List Row × List DBOp :=
  txExec db Stmt.insertUser user table

/-- Go `UserRepositoryMySQL.txUpdate`. -/
def UserRepositoryMySQL.txUpdate (db : MySQLConn) (user : User) (table : List Row) :
    Option Failure × List Row × List DBOp :=
  txExec db Stmt.updateUser user table

/-- Modelled from the spec: `infras.MySQLConn.WithTransaction` is not among the
sources. The block runs inside a scoped transaction that is committed on success
and rolled back on any failure. -/
def MySQLConn.WithTransaction (db : MySQLConn)
    (block : List Row → Option Failure × List Row × List DBOp) : StoreOutcome :=
  match db.beginErr with
  | some e => { err := some (Failure.Driver e), table := db.table, ops := [DBOp.Begin] }
  | none =>
    match block db.table with
    | (some e, _, ops) =>
      { err := some e, table := db.table, ops := DBOp.Begin :: ops ++ [DBOp.Rollback] }
    | (none, table, ops) =>
      match db.commitErr with
      | some e =>
        { err := some (Failure.Driver e), table := db.table,
          ops := DBOp.Begin :: ops ++ [DBOp.Commit] }
      | none => { err := none, table := table, ops := DBOp.Begin :: ops ++ [DBOp.Commit] }

/-- Puts the existence probe in front of the calls of a transaction. -/
def StoreOutcome.after (op : DBOp) (o : StoreOutcome) : StoreOutcome :=
  { o with ops := op :: o.ops }

/-- Go `UserRepositoryMySQL.Create`. -/
def UserRepositoryMySQL.Create (db : MySQLConn) (user : User) : StoreOutcome :=
  match UserRepositoryMySQL.ExistsByID db user.Id with
  | (_, some e) => { err := some e, table := db.table, ops := [DBOp.GetCount user.Id] }
  | (true, none) =>
    { err := some (Failure.Conflict "create" "User" "already exists"), table := db.table,
      ops := [DBOp.GetCount user.Id] }
  | (false, none) =>
    (db.WithTransaction fun table => UserRepositoryMySQL.txCreate db user table).after (DBOp.GetCount user.Id)

/-- Go `UserRepositoryMySQL.Update`. -/
def UserRepositoryMySQL.Update (db : MySQLConn) (user : User) : StoreOutcome :=
  match UserRepositoryMySQL.ExistsByID db user.Id with
  | (_, some e) => { err := some e, table := db.table, ops := [DBOp.GetCount user.Id] }
  | (false, none) =>
    { err := some (Failure.NotFound "user"), table := db.table,
      ops := [DBOp.GetCount user.Id] }
  | (true, none) =>
    (db.WithTransaction fun table => UserRepositoryMySQL.txUpdate db user table).after (DBOp.GetCount user.Id)

/-- Whether a call on the connection writes: opening the transaction, preparing
or executing a statement, committing or rolling back. -/
def DBOp.isWrite : DBOp → Bool
  | .GetCount _ => false
  | _ => true

end user

namespace handlers

open user

/-- Go `http.StatusOK`. -/
def StatusOK : Nat := 200

/-- Go `http.StatusCreated`. -/
def StatusCreated : Nat := 201

/-- Go `http.StatusUnauthorized`. -/
def StatusUnauthorized : Nat := 401

/-- Modelled from the spec: `jwtmodel.Claims` is not among the sources; the
claims object exposes at least the username. -/
structure Claims where
  Username : String
deriving DecidableEq, Repr

/-- What a handler writes: `http.Error(w, body, code)`,
`response.WithError(w, err)` or `response.WithJSON(w, code, data)`. -/
inductive Response where
  | Error (body : String) (code : Nat)
  | WithError (err : Failure)
  | WithJSON (code : Nat) (data : User)
deriving DecidableEq, Repr

/-- The status code written by `http.Error` and `response.WithJSON`. -/
def Response.status : Response → Option Nat
  | .Error _ code => some code
  | .WithError _ => none
  | .WithJSON code _ => some code

/-- Go `UserHandler.Profile`. `claims` is the outcome of the type assertion on the
request context (`none` when `ok` is false) and `ResolveByUsername` the method of
the `UserService` the handler holds. -/
def Profile (ResolveByUsername : String → User × Option Failure) (claims : Option Claims) :
    Response :=
  match claims with
  | none => Response.Error "Error Claims" StatusUnauthorized
  | some claims =>
    match ResolveByUsername claims.Username with
    | (_, some err) => Response.WithError err
    | (user, none) => Response.WithJSON StatusCreated user

end handlers

/-! ## Concrete inputs -/

namespace user

/-- The creation request of the spec's scenario. -/
def aliceRequest : UserRequestFormat :=
  { Username := "alice", Email := "a@x.com", Name := "Alice", Password := "secret1",
    Role := "member" }

/-- A request whose fields are blank but not empty. -/
def blankRequest : UserRequestFormat :=
  { Username := " ", Email := "not an email", Name := "  ", Password := " ", Role := "\t" }

/-- A request with an empty name. -/
def namelessRequest : UserRequestFormat :=
  { Username := "alice", Email := "a@x.com", Name := "", Password := "secret1",
    Role := "member" }

/-- An environment: the identifier drawn, the clock, the salt. -/
def env1 : Env := { newV4 := 7, now := 100, entropy := 5 }

/-- A later environment with another salt. -/
def env2 : Env := { newV4 := 8, now := 101, entropy := 6 }

/-- A stored user, created earlier, carrying a token. -/
def storedAlice : User :=
  { Id := 7, Username := "al", Email := "old@x.com", Name := "Al",
    Password := "$2a$14$1.old", Role := "guest", AccessToken := "tok",
    CreatedAt := 50, CreatedBy := 7 }

/-- Another user, the one acting in an update. -/
def admin : User :=
  { Id := 3, Username := "root", Email := "r@x.com", Name := "Root",
    Password := "$2a$14$2.pw", Role := "admin", CreatedAt := 10, CreatedBy := 3 }

/-- The row of `storedAlice`, column by column. -/
def aliceRow : Row :=
  { id := 7, username := "al", email := "old@x.com", name := "Al",
    password := "$2a$14$1.old", role := "guest", created_at := 50, created_by := 7,
    updated_at := { Time := 0, Valid := false }, updated_by := { UUID := 0, Valid := false },
    deleted_at := { Time := 0, Valid := false }, deleted_by := { UUID := 0, Valid := false } }

/-- The row of `admin`, column by column. -/
def adminRow : Row :=
  { id := 3, username := "root", email := "r@x.com", name := "Root",
    password := "$2a$14$2.pw", role := "admin", created_at := 10, created_by := 3,
    updated_at := { Time := 0, Valid := false }, updated_by := { UUID := 0, Valid := false },
    deleted_at := { Time := 0, Valid := false }, deleted_by := { UUID := 0, Valid := false } }

/-- A database holding the two users, whose driver reports no error. -/
def db1 : MySQLConn := { table := [adminRow, aliceRow] }

/-- User `storedAlice` after a change of address, as handed to the repository. -/
def movedAlice : User :=
  { storedAlice with Email := "a2@x.com", UpdatedAt := { Time := 101, Valid := true },
                     UpdatedBy := { UUID := 7, Valid := true } }

/-- A user whose Id is in no row of `db1`. -/
def stranger : User :=
  { Id := 9, Username := "bob", Email := "b@x.com", Name := "Bob",
    Password := "$2a$14$4.pw", Role := "member", CreatedAt := 60, CreatedBy := 9 }

/-- A database whose read connection is down. -/
def dbDown : MySQLConn := { table := [adminRow, aliceRow], readErr := some "bad connection" }

end user

namespace handlers

/-- A `UserService` whose `ResolveByUsername` knows the user `al` only. -/
def demoResolve (username : String) : user.User × Option user.Failure :=
  if username = "al" then (user.storedAlice, none)
  else ({}, some (user.Failure.NotFound "User"))

end handlers

/-! ## Properties of the entity -/

namespace user

/-- Validation passes exactly when the identifier is not nil and the five
required strings are non-empty. -/
theorem Validate_eq_none_iff (u : User) :
    u.Validate = none ↔
      (u.Id ≠ uuidNil ∧ u.Username ≠ "" ∧ u.Email ≠ "" ∧ u.Name ≠ "" ∧
        u.Password ≠ "" ∧ u.Role ≠ "") := by
  unfold User.Validate User.failedFields requiredUUID requiredString
  by_cases h0 : u.Id = uuidNil <;> by_cases h1 : u.Username = "" <;>
    by_cases h2 : u.Email = "" <;> by_cases h3 : u.Name = "" <;>
    by_cases h4 : u.Password = "" <;> by_cases h5 : u.Role = "" <;>
    simp [h0, h1, h2, h3, h4, h5]

/-- A failed validation is a validation error naming at least one field. -/
theorem Validate_eq_some (u : User) (e : Failure) (h : u.Validate = some e) :
    e = Failure.Validation u.failedFields ∧ u.failedFields ≠ [] := by
  unfold User.Validate at h
  split at h
  · cases h
  · rename_i hne
    cases h
    exact ⟨rfl, fun h0 => hne h0⟩

/-- A successful hash starts with the bcrypt header and is therefore not empty. -/
theorem HashPassword_ne_empty (B : Bcrypt) (entropy : Nat) (p h : String)
    (hh : HashPassword B entropy p = (h, none)) : h ≠ "" := by
  unfold HashPassword Bcrypt.GenerateFromPassword at hh
  cases hc : B.crypt p 14 entropy with
  | error e => simp [hc] at hh
  | ok body =>
    simp only [hc, Prod.mk.injEq, and_true] at hh
    subst hh
    intro h0
    have := congrArg String.length h0
    simp only [String.length_append] at this
    have h1 : "$".length = 1 := by decide
    have h2 : "".length = 0 := by decide
    omega

/-- The record `NewFromRequestFormat` builds before validating. -/
theorem NewFromRequestFormat_cases (B : Bcrypt) (env : Env) (req : UserRequestFormat) :
    let newUser : User :=
      { Id := env.newV4, Username := req.Username, Email := req.Email, Name := req.Name,
        Password := req.Password, Role := req.Role, CreatedAt := env.now,
        CreatedBy := env.newV4 }
    (∃ e, newUser.Validate = some e ∧
        User.NewFromRequestFormat B env req =
          { user := newUser, err := some e, trace := [Event.Println e] }) ∨
    (∃ e s, newUser.Validate = none ∧ HashPassword B env.entropy req.Password = (s, some e) ∧
        User.NewFromRequestFormat B env req =
          { user := newUser, err := some e,
            trace := [Event.Hash req.Password, Event.Println e] }) ∨
    (∃ h, newUser.Validate = none ∧ HashPassword B env.entropy req.Password = (h, none) ∧
        User.NewFromRequestFormat B env req =
          { user := { newUser with Password := h }, err := none,
            trace := [Event.Hash req.Password] }) := by
  intro newUser
  unfold User.NewFromRequestFormat
  cases hv : newUser.Validate with
  | some e => exact Or.inl ⟨e, rfl, by simp only [newUser] at hv; simp only [hv]⟩
  | none =>
    simp only [newUser] at hv
    rcases hh : HashPassword B env.entropy req.Password with ⟨s, _ | e⟩
    · exact Or.inr (Or.inr ⟨s, rfl, rfl, by simp only [hv, hh]⟩)
    · exact Or.inr (Or.inl ⟨e, s, rfl, rfl, by simp only [hv, hh]⟩)

/-- C1: when the generated id is not the nil UUID and hashing the request's
password succeeds, `NewFromRequestFormat` returns an error if and only if one of
Username, Email, Name, Password, Role of the request is the empty string. -/
theorem NewFromRequestFormat_err_iff (B : Bcrypt) (env : Env) (req : UserRequestFormat)
    (hid : env.newV4 ≠ uuidNil)
    (hhash : (HashPassword B env.entropy req.Password).2 = none) :
    (User.NewFromRequestFormat B env req).err ≠ none ↔
      (req.Username = "" ∨ req.Email = "" ∨ req.Name = "" ∨ req.Password = "" ∨
        req.Role = "") := by
  rcases NewFromRequestFormat_cases B env req with ⟨e, hv, hr⟩ | ⟨e, s, hv, hh, hr⟩ |
    ⟨h, hv, hh, hr⟩
  · rw [hr]
    have hnot : ¬ _ := fun h => by rw [(Validate_eq_none_iff _).2 h] at hv; cases hv
    simp only [ne_eq, not_and_or, not_not] at hnot
    constructor
    · intro _
      rcases hnot with h | h
      · exact absurd h hid
      · exact h
    · intro _ h
      cases h
  · rw [hh] at hhash
    cases hhash
  · rw [hr]
    have := (Validate_eq_none_iff _).1 hv
    simp only [ne_eq] at this
    constructor
    · intro h0
      exact absurd rfl h0
    · rintro (h0 | h0 | h0 | h0 | h0)
      · exact absurd h0 this.2.1
      · exact absurd h0 this.2.2.1
      · exact absurd h0 this.2.2.2.1
      · exact absurd h0 this.2.2.2.2.1
      · exact absurd h0 this.2.2.2.2.2

/-- C1 at concrete requests: a request of blank, malformed fields is accepted. -/
theorem NewFromRequestFormat_err_iff_witness :
    env1.newV4 ≠ uuidNil ∧ (HashPassword demoBcrypt env1.entropy blankRequest.Password).2 = none ∧
    ((User.NewFromRequestFormat demoBcrypt env1 blankRequest).err ≠ none ↔
      (blankRequest.Username = "" ∨ blankRequest.Email = "" ∨ blankRequest.Name = "" ∨
        blankRequest.Password = "" ∨ blankRequest.Role = "")) :=
  ⟨by decide, by decide,
    NewFromRequestFormat_err_iff demoBcrypt env1 blankRequest (by decide) (by decide)⟩

/-- C2: when `NewFromRequestFormat` returns no error, and the hasher's output for
the request's password verifies against it and differs from it, the returned
user's Password is non-empty, differs from the request's password, and
`CheckPasswordHash` accepts the request's password against it. -/
theorem NewFromRequestFormat_password (B : Bcrypt) (env : Env) (req : UserRequestFormat)
    (hok : (User.NewFromRequestFormat B env req).err = none)
    (hverify : ∀ h, HashPassword B env.entropy req.Password = (h, none) →
      CheckPasswordHash B req.Password h = true)
    (hdiffers : ∀ h, HashPassword B env.entropy req.Password = (h, none) →
      h ≠ req.Password) :
    (User.NewFromRequestFormat B env req).user.Password ≠ "" ∧
    (User.NewFromRequestFormat B env req).user.Password ≠ req.Password ∧
    CheckPasswordHash B req.Password (User.NewFromRequestFormat B env req).user.Password
      = true := by
  rcases NewFromRequestFormat_cases B env req with ⟨e, hv, hr⟩ | ⟨e, s, hv, hh, hr⟩ |
    ⟨h, hv, hh, hr⟩
  · rw [hr] at hok
    cases hok
  · rw [hr] at hok
    cases hok
  · rw [hr]
    exact ⟨HashPassword_ne_empty B env.entropy req.Password h hh, hdiffers h hh,
      hverify h hh⟩

/-- C2 at the spec's scenario request. -/
theorem NewFromRequestFormat_password_witness :
    (User.NewFromRequestFormat demoBcrypt env1 aliceRequest).err = none ∧
    (User.NewFromRequestFormat demoBcrypt env1 aliceRequest).user.Password ≠ "" ∧
    (User.NewFromRequestFormat demoBcrypt env1 aliceRequest).user.Password
      ≠ aliceRequest.Password ∧
    CheckPasswordHash demoBcrypt aliceRequest.Password
      (User.NewFromRequestFormat demoBcrypt env1 aliceRequest).user.Password = true :=
  ⟨by decide,
    NewFromRequestFormat_password demoBcrypt env1 aliceRequest (by decide)
      (fun h hh => by
        have h0 : HashPassword demoBcrypt env1.entropy aliceRequest.Password
            = ("$2a$14$5.secret1", none) := by decide
        rw [h0] at hh
        cases hh
        decide)
      (fun h hh => by
        have h0 : HashPassword demoBcrypt env1.entropy aliceRequest.Password
            = ("$2a$14$5.secret1", none) := by decide
        rw [h0] at hh
        cases hh
        decide)⟩

/-- C3: when `NewFromRequestFormat` returns no error, the returned user has the
request's Username, Email, Name and Role, the generated Id, CreatedBy equal to
that Id, UpdatedAt, UpdatedBy, DeletedAt and DeletedBy absent (IsDeleted false),
and its response view carries the same id and username with created_by equal to
the id. -/
theorem NewFromRequestFormat_fields (B : Bcrypt) (env : Env) (req : UserRequestFormat)
    (hok : (User.NewFromRequestFormat B env req).err = none) :
    let newUser := (User.NewFromRequestFormat B env req).user
    newUser.Username = req.Username ∧ newUser.Email = req.Email ∧
    newUser.Name = req.Name ∧ newUser.Role = req.Role ∧
    newUser.Id = env.newV4 ∧ newUser.CreatedBy = newUser.Id ∧
    newUser.CreatedAt = env.now ∧
    newUser.UpdatedAt.Valid = false ∧ newUser.UpdatedBy.Valid = false ∧
    newUser.DeletedAt.Valid = false ∧ newUser.DeletedBy.Valid = false ∧
    newUser.IsDeleted = false ∧
    newUser.ToResponseFormat.Id = newUser.Id ∧
    newUser.ToResponseFormat.Username = req.Username ∧
    newUser.ToResponseFormat.CreatedBy = newUser.ToResponseFormat.Id ∧
    newUser.ToResponseFormat.UpdatedBy = none ∧
    newUser.ToResponseFormat.DeletedBy = none := by
  intro newUser
  rcases NewFromRequestFormat_cases B env req with ⟨e, hv, hr⟩ | ⟨e, s, hv, hh, hr⟩ |
    ⟨h, hv, hh, hr⟩
  · rw [hr] at hok
    cases hok
  · rw [hr] at hok
    cases hok
  · simp only [newUser, hr]
    simp [User.IsDeleted, User.ToResponseFormat, NUUID.Ptr]

/-- C3 at the spec's scenario request. -/
theorem NewFromRequestFormat_fields_witness :
    (User.NewFromRequestFormat demoBcrypt env1 aliceRequest).err = none ∧
    (User.NewFromRequestFormat demoBcrypt env1 aliceRequest).user.Username = "alice" ∧
    (User.NewFromRequestFormat demoBcrypt env1 aliceRequest).user.CreatedBy =
      (User.NewFromRequestFormat demoBcrypt env1 aliceRequest).user.Id ∧
    (User.NewFromRequestFormat demoBcrypt env1 aliceRequest).user.IsDeleted = false :=
  have h := NewFromRequestFormat_fields demoBcrypt env1 aliceRequest (by decide)
  ⟨by decide, h.1, h.2.2.2.2.2.1, h.2.2.2.2.2.2.2.2.2.2.2.1⟩

/-- The three ways `Update` ends. -/
theorem Update_cases (B : Bcrypt) (env : Env) (u : User) (req : UserRequestFormat)
    (acting : User) :
    (∃ e, (u.overwritten env req acting).Validate = some e ∧
        User.Update B env u req acting =
          { user := u.overwritten env req acting, err := some e,
            trace := [Event.Println e] }) ∨
    (∃ e s, (u.overwritten env req acting).Validate = none ∧
        HashPassword B env.entropy req.Password = (s, some e) ∧
        User.Update B env u req acting =
          { user := u.overwritten env req acting, err := some e,
            trace := [Event.Hash req.Password, Event.Println e] }) ∨
    (∃ h, (u.overwritten env req acting).Validate = none ∧
        HashPassword B env.entropy req.Password = (h, none) ∧
        User.Update B env u req acting =
          { user := { u.overwritten env req acting with Password := h }, err := none,
            trace := [Event.Hash req.Password] }) := by
  unfold User.Update
  cases hv : (u.overwritten env req acting).Validate with
  | some e =>
    refine Or.inl ⟨e, rfl, ?_⟩
    unfold User.overwritten at hv
    simp only [hv]
    rfl
  | none =>
    rcases hh : HashPassword B env.entropy req.Password with ⟨s, _ | e⟩
    · refine Or.inr (Or.inr ⟨s, rfl, rfl, ?_⟩)
      unfold User.overwritten at hv
      simp only [hv, hh]
      rfl
    · refine Or.inr (Or.inl ⟨e, s, rfl, rfl, ?_⟩)
      unfold User.overwritten at hv
      simp only [hv, hh]
      rfl

/-- C4: when `Update` returns no error (and the hasher's output for the request's
password verifies against it), the receiver has the request's Username, Email,
Name and Role, a Password that is the hash of the request's password and
verifies against it, UpdatedAt present, UpdatedBy present and equal to the acting
user's Id; Id, CreatedAt, CreatedBy, DeletedAt, DeletedBy and AccessToken are
unchanged, and so is IsDeleted. -/
theorem Update_success (B : Bcrypt) (env : Env) (u : User) (req : UserRequestFormat)
    (acting : User)
    (hok : (User.Update B env u req acting).err = none)
    (hverify : ∀ h, HashPassword B env.entropy req.Password = (h, none) →
      CheckPasswordHash B req.Password h = true) :
    let u1 := (User.Update B env u req acting).user
    u1.Username = req.Username ∧ u1.Email = req.Email ∧ u1.Name = req.Name ∧
    u1.Role = req.Role ∧
    HashPassword B env.entropy req.Password = (u1.Password, none) ∧
    CheckPasswordHash B req.Password u1.Password = true ∧
    u1.UpdatedAt.Valid = true ∧ u1.UpdatedAt.Time = env.now ∧
    u1.UpdatedBy.Valid = true ∧ u1.UpdatedBy.UUID = acting.Id ∧
    u1.Id = u.Id ∧ u1.CreatedAt = u.CreatedAt ∧ u1.CreatedBy = u.CreatedBy ∧
    u1.DeletedAt = u.DeletedAt ∧ u1.DeletedBy = u.DeletedBy ∧
    u1.AccessToken = u.AccessToken ∧ u1.IsDeleted = u.IsDeleted := by
  intro u1
  rcases Update_cases B env u req acting with ⟨e, hv, hr⟩ | ⟨e, s, hv, hh, hr⟩ |
    ⟨h, hv, hh, hr⟩
  · rw [hr] at hok
    cases hok
  · rw [hr] at hok
    cases hok
  · simp only [u1, hr]
    refine ⟨rfl, rfl, rfl, rfl, hh, hverify h hh, rfl, rfl, rfl, rfl, rfl, rfl, rfl, rfl, rfl,
      rfl, rfl⟩

/-- C4 at a concrete update of a stored user by another user. -/
theorem Update_success_witness :
    (User.Update demoBcrypt env2 storedAlice aliceRequest admin).err = none ∧
    (User.Update demoBcrypt env2 storedAlice aliceRequest admin).user.Email = "a@x.com" ∧
    (User.Update demoBcrypt env2 storedAlice aliceRequest admin).user.UpdatedBy.UUID = 3 ∧
    (User.Update demoBcrypt env2 storedAlice aliceRequest admin).user.Id = 7 ∧
    (User.Update demoBcrypt env2 storedAlice aliceRequest admin).user.AccessToken = "tok" :=
  have h := Update_success demoBcrypt env2 storedAlice aliceRequest admin (by decide)
    (fun h hh => by
      have h0 : HashPassword demoBcrypt env2.entropy aliceRequest.Password
          = ("$2a$14$6.secret1", none) := by decide
      rw [h0] at hh
      cases hh
      decide)
  ⟨by decide, h.2.1, h.2.2.2.2.2.2.2.2.2.1, h.2.2.2.2.2.2.2.2.2.2.1,
    h.2.2.2.2.2.2.2.2.2.2.2.2.2.2.2.1⟩

/-- C5, as stated, fails: two successive updates of a stored user with the same
valid request both succeed and both passwords verify against the request's
password, yet the Password after the second call is not the Password after the
first, because each hash carries its own salt. -/
theorem Update_twice_password_differs :
    (User.Update demoBcrypt env1 storedAlice aliceRequest admin).err = none ∧
    (User.Update demoBcrypt env2
      (User.Update demoBcrypt env1 storedAlice aliceRequest admin).user
      aliceRequest admin).err = none ∧
    (User.Update demoBcrypt env1 storedAlice aliceRequest admin).user.Password
      = "$2a$14$5.secret1" ∧
    (User.Update demoBcrypt env2
      (User.Update demoBcrypt env1 storedAlice aliceRequest admin).user
      aliceRequest admin).user.Password = "$2a$14$6.secret1" ∧
    (User.Update demoBcrypt env2
      (User.Update demoBcrypt env1 storedAlice aliceRequest admin).user
      aliceRequest admin).user.Password
      ≠ (User.Update demoBcrypt env1 storedAlice aliceRequest admin).user.Password := by
  decide

/-- C5, amended: updating twice in succession with the same request leaves every
field other than UpdatedAt and Password equal to its value after the first call,
and when the second call returns no error (with a hasher whose output for the
request's password verifies against it) the Password after the second call
verifies against the request's password. -/
theorem Update_twice (B : Bcrypt) (e1 e2 : Env) (u : User) (req : UserRequestFormat)
    (acting : User)
    (hverify : ∀ h, HashPassword B e2.entropy req.Password = (h, none) →
      CheckPasswordHash B req.Password h = true) :
    { User.Update B e2 (User.Update B e1 u req acting).user req acting |>.user with
        UpdatedAt := (User.Update B e1 u req acting).user.UpdatedAt
        Password := (User.Update B e1 u req acting).user.Password }
      = (User.Update B e1 u req acting).user ∧
    ((User.Update B e2 (User.Update B e1 u req acting).user req acting).err = none →
      CheckPasswordHash B req.Password
        (User.Update B e2 (User.Update B e1 u req acting).user req acting).user.Password
        = true) := by
  constructor
  · rcases Update_cases B e1 u req acting with ⟨e, _, hr⟩ | ⟨e, s, _, _, hr⟩ | ⟨h, _, _, hr⟩ <;>
      rw [hr] <;>
      rcases Update_cases B e2 _ req acting with ⟨e, _, hr2⟩ | ⟨e, s, _, _, hr2⟩ |
        ⟨h, _, _, hr2⟩ <;>
      rw [hr2] <;> rfl
  · intro hok
    rcases Update_cases B e2 (User.Update B e1 u req acting).user req acting with
      ⟨e, _, hr2⟩ | ⟨e, s, _, _, hr2⟩ | ⟨h, _, hh, hr2⟩
    · rw [hr2] at hok
      cases hok
    · rw [hr2] at hok
      cases hok
    · rw [hr2]
      exact hverify h hh

/-- C5, amended, at a concrete pair of updates. -/
theorem Update_twice_witness :
    (User.Update demoBcrypt env2
      (User.Update demoBcrypt env1 storedAlice aliceRequest admin).user
      aliceRequest admin).err = none ∧
    { User.Update demoBcrypt env2
        (User.Update demoBcrypt env1 storedAlice aliceRequest admin).user
        aliceRequest admin |>.user with
        UpdatedAt := (User.Update demoBcrypt env1 storedAlice aliceRequest admin).user.UpdatedAt
        Password := (User.Update demoBcrypt env1 storedAlice aliceRequest admin).user.Password }
      = (User.Update demoBcrypt env1 storedAlice aliceRequest admin).user ∧
    CheckPasswordHash demoBcrypt aliceRequest.Password
      (User.Update demoBcrypt env2
        (User.Update demoBcrypt env1 storedAlice aliceRequest admin).user
        aliceRequest admin).user.Password = true :=
  have h := Update_twice demoBcrypt env1 env2 storedAlice aliceRequest admin
    (fun h hh => by
      have h0 : HashPassword demoBcrypt env2.entropy aliceRequest.Password
          = ("$2a$14$6.secret1", none) := by decide
      rw [h0] at hh
      cases hh
      decide)
  ⟨by decide, h.1, h.2 (by decide)⟩

/-- C8: two users that differ only in Password have the same response view, and
so the same JSON under any encoder of the view. -/
theorem ToResponseFormat_ignores_password (u1 u2 : User)
    (h : { u1 with Password := u2.Password } = u2) :
    u1.ToResponseFormat = u2.ToResponseFormat ∧
    ∀ (α : Type) (marshal : UserResponseFormat → α),
      User.MarshalJSON marshal u1 = User.MarshalJSON marshal u2 := by
  have hview : u1.ToResponseFormat = u2.ToResponseFormat := by
    rw [← h]
    rfl
  exact ⟨hview, fun α marshal => by unfold User.MarshalJSON; rw [hview]⟩

/-- C8 at a stored user and the same user with another password. -/
theorem ToResponseFormat_ignores_password_witness :
    storedAlice.ToResponseFormat
      = ({ storedAlice with Password := "$2a$14$9.other" } : User).ToResponseFormat :=
  (ToResponseFormat_ignores_password storedAlice
    { storedAlice with Password := "$2a$14$9.other" } rfl).1

/-- C10: when a required field of the request is empty, `Update` returns a
validation error naming at least one field, the hasher is not called, and the
receiver has been overwritten all the same: Username, Email, Name, Role and the
raw Password come from the request, UpdatedAt and UpdatedBy are the present time
and the acting user's Id; the other fields keep their values. -/
theorem Update_validation_failure (B : Bcrypt) (env : Env) (u : User)
    (req : UserRequestFormat) (acting : User)
    (hempty : req.Username = "" ∨ req.Email = "" ∨ req.Name = "" ∨ req.Password = "" ∨
      req.Role = "") :
    (User.Update B env u req acting).user =
      { u with
        Username := req.Username
        Email := req.Email
        Name := req.Name
        Password := req.Password
        Role := req.Role
        UpdatedAt := { Time := env.now, Valid := true }
        UpdatedBy := { UUID := acting.Id, Valid := true } } ∧
    (∃ fields, fields ≠ [] ∧
      (User.Update B env u req acting).err = some (Failure.Validation fields) ∧
      (User.Update B env u req acting).trace = [Event.Println (Failure.Validation fields)]) ∧
    (∀ p, Event.Hash p ∉ (User.Update B env u req acting).trace) ∧
    (User.Update B env u req acting).user.Id = u.Id ∧
    (User.Update B env u req acting).user.CreatedAt = u.CreatedAt ∧
    (User.Update B env u req acting).user.CreatedBy = u.CreatedBy ∧
    (User.Update B env u req acting).user.DeletedAt = u.DeletedAt ∧
    (User.Update B env u req acting).user.DeletedBy = u.DeletedBy := by
  have hinvalid : (u.overwritten env req acting).Validate ≠ none := by
    intro h0
    have h1 := (Validate_eq_none_iff _).1 h0
    rcases hempty with h | h | h | h | h
    · exact h1.2.1 h
    · exact h1.2.2.1 h
    · exact h1.2.2.2.1 h
    · exact h1.2.2.2.2.1 h
    · exact h1.2.2.2.2.2 h
  rcases Update_cases B env u req acting with ⟨e, hv, hr⟩ | ⟨e, s, hv, _, _⟩ | ⟨h, hv, _, _⟩
  · obtain ⟨he, hne⟩ := Validate_eq_some _ e hv
    rw [hr]
    subst he
    refine ⟨rfl, ⟨_, hne, rfl, rfl⟩, ?_, rfl, rfl, rfl, rfl, rfl⟩
    intro p hp
    simp at hp
  · exact absurd hv hinvalid
  · exact absurd hv hinvalid

/-- C10 at a request with an empty name. -/
theorem Update_validation_failure_witness :
    (User.Update demoBcrypt env2 storedAlice namelessRequest admin).user.Password = "secret1" ∧
    (User.Update demoBcrypt env2 storedAlice namelessRequest admin).err
      = some (Failure.Validation ["Name"]) ∧
    (User.Update demoBcrypt env2 storedAlice namelessRequest admin).user.Id = 7 :=
  have h := Update_validation_failure demoBcrypt env2 storedAlice namelessRequest admin
    (Or.inr (Or.inr (Or.inl rfl)))
  ⟨by rw [h.1]; rfl, by decide, h.2.2.2.1⟩

/-! ## Properties of the store -/

/-- The probe answers true without error only when exactly one row has the id,
and false without error only when none has. -/
theorem ExistsByID_count (db : MySQLConn) (id : UUID) (b : Bool)
    (h : UserRepositoryMySQL.ExistsByID db id = (b, none)) :
    db.readErr = none ∧ countById db.table id = (if b then 1 else 0) := by
  unfold UserRepositoryMySQL.ExistsByID at h
  cases hr : db.readErr with
  | some e => simp [hr] at h
  | none =>
    simp only [hr] at h
    refine ⟨rfl, ?_⟩
    generalize countById db.table id = n at h
    match n, h with
    | 0, h =>
      have hb : false = b := congrArg Prod.fst h
      subst hb
      rfl
    | 1, h =>
      have hb : true = b := congrArg Prod.fst h
      subst hb
      rfl
    | n + 2, h =>
      have he := congrArg Prod.snd h
      cases he

/-- The update statement turns every row with the bound id into the bound row. -/
theorem updateUser_eq_map (p : Row) (table : List Row) :
    updateUser p table = table.map fun r => if r.id = p.id then p else r := by
  unfold updateUser
  apply List.map_congr_left
  intro r _
  by_cases h : r.id = p.id
  · simp only [h, if_true]
  · simp only [h, if_false]

/-- The calls of a transaction around `txExec`, whatever the driver answers. -/
theorem WithTransaction_txExec (db : MySQLConn) (stmt : Stmt) (user : User) :
    (db.WithTransaction fun table => txExec db stmt user table) =
      match db.beginErr, db.prepareErr, db.execErr, db.commitErr with
      | some e, _, _, _ =>
        { err := some (Failure.Driver e), table := db.table, ops := [DBOp.Begin] }
      | none, some e, _, _ =>
        { err := some (Failure.Driver e), table := db.table,
          ops := [DBOp.Begin, DBOp.PrepareNamed stmt, DBOp.Rollback] }
      | none, none, some e, _ =>
        { err := some (Failure.Driver e), table := db.table,
          ops := [DBOp.Begin, DBOp.PrepareNamed stmt, DBOp.Exec stmt user.toRow,
            DBOp.Rollback] }
      | none, none, none, some e =>
        { err := some (Failure.Driver e), table := db.table,
          ops := [DBOp.Begin, DBOp.PrepareNamed stmt, DBOp.Exec stmt user.toRow,
            DBOp.Commit] }
      | none, none, none, none =>
        { err := none, table := stmt.run user.toRow db.table,
          ops := [DBOp.Begin, DBOp.PrepareNamed stmt, DBOp.Exec stmt user.toRow,
            DBOp.Commit] } := by
  unfold MySQLConn.WithTransaction txExec
  cases db.beginErr <;> cases db.prepareErr <;> cases db.execErr <;> cases db.commitErr <;> rfl

/-- C6: when the probe reports that the user's Id exists, `Create` returns the
Conflict error, makes no call on the connection besides the probe (it neither
opens the transaction nor executes the insert) and leaves the table unchanged;
when the probe fails, `Create` returns the probe's error, again with no other
call and the table unchanged; and the transaction is opened or the insert
executed only when the probe reports false without error. -/
theorem Create_guard (db : MySQLConn) (user : User) :
    (UserRepositoryMySQL.ExistsByID db user.Id = (true, none) →
      UserRepositoryMySQL.Create db user =
        { err := some (Failure.Conflict "create" "User" "already exists"),
          table := db.table, ops := [DBOp.GetCount user.Id] }) ∧
    (∀ b e, UserRepositoryMySQL.ExistsByID db user.Id = (b, some e) →
      UserRepositoryMySQL.Create db user =
        { err := some e, table := db.table, ops := [DBOp.GetCount user.Id] }) ∧
    (UserRepositoryMySQL.ExistsByID db user.Id ≠ (false, none) →
      (UserRepositoryMySQL.Create db user).table = db.table ∧
      ∀ op ∈ (UserRepositoryMySQL.Create db user).ops, op.isWrite = false) ∧
    ((DBOp.Begin ∈ (UserRepositoryMySQL.Create db user).ops ∨
        ∃ s p, DBOp.Exec s p ∈ (UserRepositoryMySQL.Create db user).ops) →
      UserRepositoryMySQL.ExistsByID db user.Id = (false, none)) := by
  have key : UserRepositoryMySQL.ExistsByID db user.Id ≠ (false, none) →
      (UserRepositoryMySQL.Create db user).table = db.table ∧
      (UserRepositoryMySQL.Create db user).ops = [DBOp.GetCount user.Id] := by
    intro hne
    unfold UserRepositoryMySQL.Create
    rcases hx : UserRepositoryMySQL.ExistsByID db user.Id with ⟨b, _ | e⟩
    · cases b
      · exact absurd hx hne
      · exact ⟨rfl, rfl⟩
    · cases b <;> exact ⟨rfl, rfl⟩
  refine ⟨?_, ?_, ?_, ?_⟩
  · intro hx
    unfold UserRepositoryMySQL.Create
    rw [hx]
  · intro b e hx
    unfold UserRepositoryMySQL.Create
    rw [hx]
    cases b <;> rfl
  · intro hne
    refine ⟨(key hne).1, ?_⟩
    rw [(key hne).2]
    intro op hop
    simp only [List.mem_singleton] at hop
    subst hop
    rfl
  · intro hw
    by_contra hne
    rw [(key hne).2] at hw
    simp at hw

/-- C6 at a database that already holds the user, and at one whose read fails. -/
theorem Create_guard_witness :
    UserRepositoryMySQL.ExistsByID db1 storedAlice.Id = (true, none) ∧
    UserRepositoryMySQL.Create db1 storedAlice =
      { err := some (Failure.Conflict "create" "User" "already exists"),
        table := db1.table, ops := [DBOp.GetCount storedAlice.Id] } ∧
    UserRepositoryMySQL.Create dbDown stranger =
      { err := some (Failure.Driver "bad connection"), table := dbDown.table,
        ops := [DBOp.GetCount stranger.Id] } :=
  ⟨by decide, (Create_guard db1 storedAlice).1 (by decide),
    (Create_guard dbDown stranger).2.1 false (Failure.Driver "bad connection") (by decide)⟩

/-- C7: when the probe reports that the user's Id does not exist, `Update`
returns the NotFound error, makes no call on the connection besides the probe
and leaves the table unchanged. When the probe reports that it exists, exactly
one row has that Id; if the driver reports no error, `Update` returns no error,
runs the update statement once inside a committed transaction, and the table
afterwards is the table before with the row of that Id replaced by the row whose
columns are the user's Id, Username, Email, Name, Password, Role, CreatedAt,
CreatedBy, UpdatedAt, UpdatedBy, DeletedAt and DeletedBy, every other row as it
was; and whenever `Update` returns an error the table is unchanged. -/
theorem Update_guard (db : MySQLConn) (user : User) :
    (UserRepositoryMySQL.ExistsByID db user.Id = (false, none) →
      UserRepositoryMySQL.Update db user =
        { err := some (Failure.NotFound "user"), table := db.table,
          ops := [DBOp.GetCount user.Id] } ∧
      DBOp.Begin ∉ (UserRepositoryMySQL.Update db user).ops ∧
      ∀ s p, DBOp.Exec s p ∉ (UserRepositoryMySQL.Update db user).ops) ∧
    (UserRepositoryMySQL.ExistsByID db user.Id = (true, none) →
      countById db.table user.Id = 1 ∧
      (db.beginErr = none → db.prepareErr = none → db.execErr = none →
        db.commitErr = none →
        UserRepositoryMySQL.Update db user =
          { err := none,
            table := db.table.map fun r =>
              if r.id = user.Id then
                { id := user.Id, username := user.Username, email := user.Email,
                  name := user.Name, password := user.Password, role := user.Role,
                  created_at := user.CreatedAt, created_by := user.CreatedBy,
                  updated_at := user.UpdatedAt, updated_by := user.UpdatedBy,
                  deleted_at := user.DeletedAt, deleted_by := user.DeletedBy }
              else r,
            ops := [DBOp.GetCount user.Id, DBOp.Begin, DBOp.PrepareNamed Stmt.updateUser,
              DBOp.Exec Stmt.updateUser
                { id := user.Id, username := user.Username, email := user.Email,
                  name := user.Name, password := user.Password, role := user.Role,
                  created_at := user.CreatedAt, created_by := user.CreatedBy,
                  updated_at := user.UpdatedAt, updated_by := user.UpdatedBy,
                  deleted_at := user.DeletedAt, deleted_by := user.DeletedBy },
              DBOp.Commit] }) ∧
      ((UserRepositoryMySQL.Update db user).err ≠ none →
        (UserRepositoryMySQL.Update db user).table = db.table)) := by
  constructor
  · intro hx
    have hU : UserRepositoryMySQL.Update db user =
        { err := some (Failure.NotFound "user"), table := db.table,
          ops := [DBOp.GetCount user.Id] } := by
      unfold UserRepositoryMySQL.Update
      rw [hx]
    rw [hU]
    simp
  · intro hx
    have hU : UserRepositoryMySQL.Update db user =
        (db.WithTransaction fun table => txExec db Stmt.updateUser user table).after
          (DBOp.GetCount user.Id) := by
      unfold UserRepositoryMySQL.Update
      rw [hx]
      rfl
    refine ⟨by simpa using (ExistsByID_count db user.Id true hx).2, ?_, ?_⟩
    · intro h1 h2 h3 h4
      rw [hU, WithTransaction_txExec, h1, h2, h3, h4]
      simp only [StoreOutcome.after, Stmt.run, updateUser_eq_map]
      rfl
    · rw [hU, WithTransaction_txExec]
      cases db.beginErr <;> cases db.prepareErr <;> cases db.execErr <;>
        cases db.commitErr <;> simp [StoreOutcome.after]

/-- C7 at a database that lacks the user, and at one that holds it: the row of
id 7 takes the new address and audit columns, the row of id 3 stays. -/
theorem Update_guard_witness :
    UserRepositoryMySQL.ExistsByID db1 stranger.Id = (false, none) ∧
    UserRepositoryMySQL.ExistsByID db1 movedAlice.Id = (true, none) ∧
    UserRepositoryMySQL.Update db1 stranger =
      { err := some (Failure.NotFound "user"),
        table :=
          [{ id := 3, username := "root", email := "r@x.com", name := "Root",
             password := "$2a$14$2.pw", role := "admin", created_at := 10, created_by := 3,
             updated_at := { Time := 0, Valid := false },
             updated_by := { UUID := 0, Valid := false },
             deleted_at := { Time := 0, Valid := false },
             deleted_by := { UUID := 0, Valid := false } },
           { id := 7, username := "al", email := "old@x.com", name := "Al",
             password := "$2a$14$1.old", role := "guest", created_at := 50, created_by := 7,
             updated_at := { Time := 0, Valid := false },
             updated_by := { UUID := 0, Valid := false },
             deleted_at := { Time := 0, Valid := false },
             deleted_by := { UUID := 0, Valid := false } }],
        ops := [DBOp.GetCount 9] } ∧
    UserRepositoryMySQL.Update db1 movedAlice =
      { err := none,
        table :=
          [{ id := 3, username := "root", email := "r@x.com", name := "Root",
             password := "$2a$14$2.pw", role := "admin", created_at := 10, created_by := 3,
             updated_at := { Time := 0, Valid := false },
             updated_by := { UUID := 0, Valid := false },
             deleted_at := { Time := 0, Valid := false },
             deleted_by := { UUID := 0, Valid := false } },
           { id := 7, username := "al", email := "a2@x.com", name := "Al",
             password := "$2a$14$1.old", role := "guest", created_at := 50, created_by := 7,
             updated_at := { Time := 101, Valid := true },
             updated_by := { UUID := 7, Valid := true },
             deleted_at := { Time := 0, Valid := false },
             deleted_by := { UUID := 0, Valid := false } }],
        ops := [DBOp.GetCount 7, DBOp.Begin, DBOp.PrepareNamed Stmt.updateUser,
          DBOp.Exec Stmt.updateUser
            { id := 7, username := "al", email := "a2@x.com", name := "Al",
              password := "$2a$14$1.old", role := "guest", created_at := 50,
              created_by := 7, updated_at := { Time := 101, Valid := true },
              updated_by := { UUID := 7, Valid := true },
              deleted_at := { Time := 0, Valid := false },
              deleted_by := { UUID := 0, Valid := false } },
          DBOp.Commit] } :=
  ⟨by decide, by decide, ((Update_guard db1 stranger).1 (by decide)).1,
    ((Update_guard db1 movedAlice).2 (by decide)).2.1 rfl rfl rfl rfl⟩

end user

/-! ## The Profile handler -/

namespace handlers

/-- C9: for a request with valid claims whose user resolves, `Profile` writes
the resolved user with status 201 (`http.StatusCreated`), not the status 200 its
documentation declares. -/
theorem Profile_success_status :
    demoResolve "al" = (user.storedAlice, none) ∧
    Profile demoResolve (some { Username := "al" })
      = Response.WithJSON 201 user.storedAlice ∧
    (Profile demoResolve (some { Username := "al" })).status ≠ some StatusOK := by
  decide

end handlers
